import Mathlib

/-!
Formal model of the RAG pipeline in src/RETO_RAG.py (repository tlacuache987/RETO_RAG).

The Python program is glue around external libraries (langchain, ChromaDB, OpenAI).
This file embeds the repository's own control and data logic as executable Lean
definitions: pure functions become Lean functions, external collaborators (the
recursive text splitter, the vector store, the QA chain, the file loaders) become
explicit function parameters or oracles, and Python exceptions become `Except`.
Python strings are modelled by `String` (character-level operations go through
`String.toList`), Python ints by `Nat`/`Int`, dictionaries with a known key set by
structures with `Option` fields (a `none` field models an absent key).
-/

set_option autoImplicit false
set_option maxRecDepth 10000

/-- Metadata dictionary of a langchain `Document` as used by this program.
Only the keys the program reads or writes are modelled; a `none` field models
the key being absent from the Python dict. -/
structure Metadata where
  source_file : Option String
  file_type : Option String
  chunk_id : Option Nat
  chunk_size : Option Nat
deriving DecidableEq

/-- A langchain `Document`: page text plus its metadata dict. -/
structure Document where
  page_content : String
  metadata : Metadata
deriving DecidableEq

/-! ### TextChunker (src/RETO_RAG.py lines 88-124) -/

/-- Configuration held by `TextChunker`: the `chunk_size` / `chunk_overlap`
arguments of `TextChunker.__init__`, passed through to the external
`RecursiveCharacterTextSplitter`. Python ints may be negative, hence `Int`. -/
structure TextChunker where
  chunk_size : Int
  chunk_overlap : Int
deriving DecidableEq

/-- Modelled from the spec: the chunk-size/overlap validation happens inside the
external `RecursiveCharacterTextSplitter` constructor that
`TextChunker.__init__` (src/RETO_RAG.py lines 99-104) invokes; that library code
is not part of this repository. The spec states that both values must satisfy
`0 <= chunk_overlap < chunk_size` and that violating this is a configuration
error, raised at construction time — before any document is processed. -/
def TextChunker.init (chunk_size chunk_overlap : Int) : Except String TextChunker :=
  if 0 ≤ chunk_overlap ∧ chunk_overlap < chunk_size then
    Except.ok { chunk_size := chunk_size, chunk_overlap := chunk_overlap }
  else
    Except.error ("ConfigurationError")

/-- `TextChunker.split_documents` (src/RETO_RAG.py lines 106-124).
The actual text splitting `self.splitter.split_documents(documents)` is the
external recursive splitter, abstracted here as the `splitter` parameter.
The repository's own logic is the enumeration loop that stamps each chunk with
`chunk_id = i` (position in the whole output sequence) and
`chunk_size = len(chunk.page_content)`. -/
def TextChunker.split_documents (splitter : List Document → List Document)
    (documents : List Document) : List Document :=
  (splitter documents).enum.map (fun p =>
    { page_content := p.2.page_content
      , metadata := { p.2.metadata with
          chunk_id := some p.1
          , chunk_size := some p.2.page_content.length } })

/-! ### Generic helper lemmas about `List.enum` -/

theorem map_enum_fst {α β : Type} (f : Nat → β) (l : List α) :
    l.enum.map (fun p => f p.1) = (List.range l.length).map f := by
  rw [← List.enum_map_fst l, List.map_map]
  exact List.map_congr_left (fun p _ => rfl)

theorem map_enum_snd {α β : Type} (f : α → β) (l : List α) :
    l.enum.map (fun p => f p.2) = l.map f := by
  conv_rhs => rw [← List.enum_map_snd l]
  rw [List.map_map]
  exact List.map_congr_left (fun p _ => rfl)

/-- Sample inputs used by witness theorems. -/
def sampleDoc : Document :=
  { page_content := "hola"
    , metadata := { source_file := none, file_type := none, chunk_id := none, chunk_size := none } }

/-- The chunk that `TextChunker.split_documents` produces from `sampleDoc` when the
external splitter returns its input unchanged. -/
def sampleChunk : Document :=
  { page_content := "hola"
    , metadata := { source_file := none, file_type := none, chunk_id := some 0, chunk_size := some 4 } }

/-- C3: for every pair of configuration values with `chunk_overlap >= chunk_size`,
constructing the chunker fails with a `ConfigurationError` (at construction, hence
before any document is processed), and construction succeeds exactly when
`0 <= chunk_overlap < chunk_size`. -/
theorem chunker_rejects_large_overlap (chunk_size chunk_overlap : Int) :
    (chunk_size ≤ chunk_overlap →
        TextChunker.init chunk_size chunk_overlap = Except.error ("ConfigurationError"))
    ∧ ((∃ c, TextChunker.init chunk_size chunk_overlap = Except.ok c)
        ↔ (0 ≤ chunk_overlap ∧ chunk_overlap < chunk_size)) := by
  constructor
  · intro h
    have hnot : ¬ (0 ≤ chunk_overlap ∧ chunk_overlap < chunk_size) := by
      intro hc
      exact absurd h (not_le.mpr hc.2).elim
    simp [TextChunker.init, hnot]
  · constructor
    · rintro ⟨c, hc⟩
      by_contra hn
      simp [TextChunker.init, hn] at hc
    · intro hc
      exact ⟨{ chunk_size := chunk_size, chunk_overlap := chunk_overlap },
        by simp [TextChunker.init, hc]⟩

/-- Witness for C3 at a concrete input: overlap 200 with size 100 is rejected. -/
theorem chunker_rejects_large_overlap_witness :
    TextChunker.init 100 200 = Except.error ("ConfigurationError") :=
  (chunker_rejects_large_overlap 100 200).1 (by decide)

/-- C5: every chunk produced by one call to `split_documents` carries a zero-based
sequential `chunk_id` spanning the whole output sequence: listed in output order,
the `chunk_id` values are exactly `some 0, some 1, ..., some (N-1)` — hence unique
and strictly increasing. -/
theorem split_documents_sequential_chunk_ids (splitter : List Document → List Document)
    (documents : List Document) :
    (TextChunker.split_documents splitter documents).map (fun c => c.metadata.chunk_id)
      = (List.range (TextChunker.split_documents splitter documents).length).map
          (fun i => some i) := by
  unfold TextChunker.split_documents
  rw [List.map_map, List.length_map, List.enum_length]
  exact map_enum_fst (fun i => (some i : Option Nat)) (splitter documents)

/-- C6: every chunk produced by `split_documents` has its `chunk_size` metadata
equal to the exact character length of the chunk's text. -/
theorem split_documents_chunk_size_exact (splitter : List Document → List Document)
    (documents : List Document) :
    ∀ chunk ∈ TextChunker.split_documents splitter documents,
      chunk.metadata.chunk_size = some chunk.page_content.length := by
  intro chunk hc
  unfold TextChunker.split_documents at hc
  rcases List.mem_map.mp hc with ⟨p, _, rfl⟩
  rfl

/-- Witness for C6 at a concrete input: with the identity splitter on one sample
document, the produced chunk records size 4 for the 4-character text. -/
theorem split_documents_chunk_size_exact_witness :
    sampleChunk.metadata.chunk_size = some sampleChunk.page_content.length :=
  split_documents_chunk_size_exact (fun l => l) [sampleDoc] sampleChunk (by decide)

/-! ### RAGSystem query phase (src/RETO_RAG.py lines 126-273) -/

/-- The Chroma vector store handle created by `build_vectorstore`
(src/RETO_RAG.py lines 173-177); only its presence matters to the claims. -/
structure Vectorstore where
  collection_name : String
deriving DecidableEq

/-- The retriever configured by `setup_retriever` (src/RETO_RAG.py lines 204-207).
The float-valued `lambda_mult = 0.5` search kwarg is not modelled (floating point);
no claim depends on it. -/
structure Retriever where
  search_type : String
  k : Nat
  fetch_k : Nat
deriving DecidableEq

/-- Result dict of `qa_chain.invoke` consumed by `RAGSystem.query`: the
`result` text and, when present, the `source_documents` key. -/
structure QAOutput where
  result : String
  source_documents : Option (List Document)

/-- One entry of the `sources` list built by `RAGSystem.query`
(src/RETO_RAG.py lines 253-260). `chunk_id = none` models the Python
default value of `metadata.get`. -/
structure SourceInfo where
  document_id : Nat
  source_file : String
  chunk_id : Option Nat
  content_preview : String
deriving DecidableEq

/-- The response dict returned by `RAGSystem.query`; `none` fields model keys
absent from the Python dict. -/
structure QueryResponse where
  question : String
  answer : String
  timestamp : String
  sources : Option (List SourceInfo)
  num_sources : Option Nat
  error : Option Bool

/-- Mutable state of `RAGSystem` relevant to the claims: the three pipeline
handles, each `None` until its setup step has run. The QA chain is the external
`qa_chain.invoke` call, modelled as an oracle from the prompt string to either a
result (`Except.ok`) or a raised exception (`Except.error` with its message). -/
structure RAGSystem where
  vectorstore : Option Vectorstore
  retriever : Option Retriever
  qa_chain : Option (String → Except String QAOutput)

/-- The fixed instruction suffix appended to the question in `RAGSystem.query`
(src/RETO_RAG.py line 243). -/
def instruction_suffix : String := " --- Responde concretamente, sin tanto choro"

/-- `RAGSystem.setup_retriever` (src/RETO_RAG.py lines 193-209): raises a
`ValueError` when the vector store has not been built, otherwise stores a
retriever with the given search type and `k`, plus `fetch_k = 20`.
`Except.error` models the raised exception; `Except.ok` carries the updated
system state. -/
def RAGSystem.setup_retriever (sys : RAGSystem) (k : Nat) (search_type : String) :
    Except String RAGSystem :=
  match sys.vectorstore with
  | none => Except.error ("Primero debe construir la base de datos vectorial")
  | some _ =>
      Except.ok { sys with
        retriever := some { search_type := search_type, k := k, fetch_k := 20 } }

/-- One entry of the `sources` list built by `RAGSystem.query`
(src/RETO_RAG.py lines 254-259) from the pair of the loop index `i` and the
retrieved document: `document_id = i + 1`, the `metadata.get` calls with their
defaults, and the 200-character preview with the appended ellipsis. -/
def query_source_entry (p : Nat × Document) : SourceInfo :=
  { document_id := p.1 + 1,
    source_file := p.2.metadata.source_file.getD ("Unknown"),
    chunk_id := p.2.metadata.chunk_id,
    content_preview := p.2.page_content.take 200 ++ "..." }

/-- The `sources` list built by `RAGSystem.query` (src/RETO_RAG.py lines
252-260): one entry per retrieved document, in retrieval order. -/
def query_sources (source_documents : List Document) : List SourceInfo :=
  source_documents.enum.map query_source_entry

/-- Body of the try/except block of `RAGSystem.query` (src/RETO_RAG.py lines
242-273), given the outcome of the `qa_chain.invoke` call: the except-branch
builds the error-flagged dict; the try-branch builds the response dict and, when
sources were requested and present, attaches the `sources` list and its length. -/
def query_respond (question now : String) (outcome : Except String QAOutput)
    (return_sources : Bool) : QueryResponse :=
  match outcome with
  | Except.error e =>
      { question := question,
        answer := "Error procesando consulta: " ++ e,
        timestamp := now,
        sources := none, num_sources := none, error := some true }
  | Except.ok result =>
      let response : QueryResponse :=
        { question := question, answer := result.result, timestamp := now,
          sources := none, num_sources := none, error := none }
      match return_sources, result.source_documents with
      | true, some source_documents =>
          let sources := query_sources source_documents
          { response with sources := some sources, num_sources := some sources.length }
      | _, _ => response

/-- `RAGSystem.query` (src/RETO_RAG.py lines 226-273). `now` stands for
`time.strftime` at the moment of the call. A raised `ValueError` (QA chain not
configured) is `Except.error`; every other outcome is `Except.ok` with the
response dict of `query_respond` — including provider failures, which are caught
and turned into an error-flagged response. -/
def RAGSystem.query (sys : RAGSystem) (question : String) (return_sources : Bool)
    (now : String) : Except String QueryResponse :=
  match sys.qa_chain with
  | none => Except.error ("Sistema no inicializado completamente")
  | some chain =>
      Except.ok
        (query_respond question now (chain (question ++ instruction_suffix)) return_sources)

/-- The response produced by the provider-failure branch of `RAGSystem.query`. -/
def errorResponse (question e now : String) : QueryResponse :=
  { question := question,
    answer := "Error procesando consulta: " ++ e,
    timestamp := now,
    sources := none, num_sources := none, error := some true }

/-- C4: whenever the generation-provider call raises (the QA chain oracle returns
`Except.error e`), `query` returns normally (`Except.ok`, never propagating the
exception) with `error` set to `true` and a human-readable error message as the
answer. -/
theorem query_provider_failure_flags_error (vs : Option Vectorstore)
    (rt : Option Retriever) (chain : String → Except String QAOutput)
    (question now e : String) (return_sources : Bool)
    (h : chain (question ++ instruction_suffix) = Except.error e) :
    ∃ resp : QueryResponse,
      RAGSystem.query { vectorstore := vs, retriever := rt, qa_chain := some chain }
          question return_sources now = Except.ok resp
      ∧ resp.error = some true
      ∧ resp.answer = "Error procesando consulta: " ++ e := by
  refine ⟨errorResponse question e now, ?_, rfl, rfl⟩
  have hq : RAGSystem.query { vectorstore := vs, retriever := rt, qa_chain := some chain }
      question return_sources now
      = Except.ok (query_respond question now
          (chain (question ++ instruction_suffix)) return_sources) := rfl
  rw [hq, h]
  rfl

/-- Witness for C4 at a concrete input: a chain that always raises. -/
theorem query_provider_failure_flags_error_witness :
    ∃ resp : QueryResponse,
      RAGSystem.query
          { vectorstore := none, retriever := none,
            qa_chain := some (fun _ => Except.error ("boom")) }
          ("hola") true ("2025-01-01 00:00:00") = Except.ok resp
      ∧ resp.error = some true
      ∧ resp.answer = "Error procesando consulta: " ++ "boom" :=
  query_provider_failure_flags_error none none (fun _ => Except.error ("boom"))
    ("hola") ("2025-01-01 00:00:00") ("boom") true rfl

/-- C10: on the provider-failure path, the response contains exactly the fields
question (the original question, without the appended instruction suffix),
answer, error and timestamp; `sources` and `num_sources` are absent (`none`) even
though the caller requested sources (`return_sources = true`). -/
theorem query_error_result_shape (vs : Option Vectorstore) (rt : Option Retriever)
    (chain : String → Except String QAOutput) (question now e : String)
    (h : chain (question ++ instruction_suffix) = Except.error e) :
    RAGSystem.query { vectorstore := vs, retriever := rt, qa_chain := some chain }
        question true now
      = Except.ok
          { question := question,
            answer := "Error procesando consulta: " ++ e,
            timestamp := now,
            sources := none, num_sources := none, error := some true } := by
  have hq : RAGSystem.query { vectorstore := vs, retriever := rt, qa_chain := some chain }
      question true now
      = Except.ok (query_respond question now
          (chain (question ++ instruction_suffix)) true) := rfl
  rw [hq, h]
  rfl

/-- Witness for C10 at a concrete input. -/
theorem query_error_result_shape_witness :
    RAGSystem.query
        { vectorstore := none, retriever := none,
          qa_chain := some (fun _ => Except.error ("boom")) }
        ("hola") true ("2025-01-01 00:00:00")
      = Except.ok
          { question := "hola",
            answer := "Error procesando consulta: " ++ "boom",
            timestamp := "2025-01-01 00:00:00",
            sources := none, num_sources := none, error := some true } :=
  query_error_result_shape none none (fun _ => Except.error ("boom"))
    ("hola") ("2025-01-01 00:00:00") ("boom") rfl

/-- C7: invoking a pipeline stage out of order raises to the caller:
`setup_retriever` before the vector store is built, and `query` before the QA
chain is configured, both return `Except.error` (a raised `ValueError`), unlike
provider failures which are converted into `Except.ok` responses. -/
theorem out_of_order_stage_raises (sys : RAGSystem) (k : Nat)
    (search_type question now : String) (return_sources : Bool) :
    (sys.vectorstore = none →
        sys.setup_retriever k search_type
          = Except.error ("Primero debe construir la base de datos vectorial"))
    ∧ (sys.qa_chain = none →
        sys.query question return_sources now
          = Except.error ("Sistema no inicializado completamente")) := by
  constructor
  · intro h
    simp [RAGSystem.setup_retriever, h]
  · intro h
    simp [RAGSystem.query, h]

/-- The freshly constructed `RAGSystem` (src/RETO_RAG.py lines 154-157): all
three pipeline handles start as `None`. -/
def freshSystem : RAGSystem :=
  { vectorstore := none, retriever := none, qa_chain := none }

/-- Witness for C7 at a concrete input: the freshly constructed system. -/
theorem out_of_order_stage_raises_witness :
    (RAGSystem.setup_retriever freshSystem 5 ("similarity")
      = Except.error ("Primero debe construir la base de datos vectorial"))
    ∧ (RAGSystem.query freshSystem ("hola") true ("2025-01-01 00:00:00")
      = Except.error ("Sistema no inicializado completamente")) :=
  ⟨(out_of_order_stage_raises freshSystem 5 ("similarity") ("hola")
      ("2025-01-01 00:00:00") true).1 rfl,
   (out_of_order_stage_raises freshSystem 5 ("similarity") ("hola")
      ("2025-01-01 00:00:00") true).2 rfl⟩

theorem query_sources_from_fields :
    ∀ (n : Nat) (docs : List Document),
      ((List.enumFrom n docs).map query_source_entry).map (fun s => s.document_id)
          = (List.range' n docs.length).map (fun i => i + 1)
      ∧ ((List.enumFrom n docs).map query_source_entry).map (fun s => s.content_preview)
          = docs.map (fun d => d.page_content.take 200 ++ "...")
      ∧ ((List.enumFrom n docs).map query_source_entry).map (fun s => s.source_file)
          = docs.map (fun d => d.metadata.source_file.getD ("Unknown"))
      ∧ ((List.enumFrom n docs).map query_source_entry).map (fun s => s.chunk_id)
          = docs.map (fun d => d.metadata.chunk_id) := by
  intro n docs
  induction docs generalizing n with
  | nil => exact ⟨rfl, rfl, rfl, rfl⟩
  | cons d ds ih =>
      obtain ⟨ih1, ih2, ih3, ih4⟩ := ih (n + 1)
      simp only [List.enumFrom_cons, List.map_cons, List.length_cons, List.range'_succ]
      refine ⟨?_, ?_, ?_, ?_⟩
      · exact congrArg₂ (· :: ·) rfl ih1
      · exact congrArg₂ (· :: ·) rfl ih2
      · exact congrArg₂ (· :: ·) rfl ih3
      · exact congrArg₂ (· :: ·) rfl ih4

/-- C8: on provider success with sources requested, the returned response holds
the provider's answer, a `sources` list following retrieval order whose entries
have `document_id` equal to their 1-based position, `content_preview` equal to
the first 200 characters of the fragment text followed by an ellipsis, and the
fragment's source file and chunk id; `num_sources` equals the number of sources. -/
theorem query_success_sources_format (vs : Option Vectorstore)
    (rt : Option Retriever) (chain : String → Except String QAOutput)
    (question now ans : String) (docs : List Document)
    (h : chain (question ++ instruction_suffix)
        = Except.ok { result := ans, source_documents := some docs }) :
    ∃ srcs : List SourceInfo,
      RAGSystem.query { vectorstore := vs, retriever := rt, qa_chain := some chain }
          question true now
        = Except.ok
            { question := question, answer := ans, timestamp := now,
              sources := some srcs, num_sources := some srcs.length, error := none }
      ∧ srcs.map (fun s => s.document_id) = (List.range docs.length).map (fun i => i + 1)
      ∧ srcs.map (fun s => s.content_preview)
          = docs.map (fun d => d.page_content.take 200 ++ "...")
      ∧ srcs.map (fun s => s.source_file)
          = docs.map (fun d => d.metadata.source_file.getD ("Unknown"))
      ∧ srcs.map (fun s => s.chunk_id) = docs.map (fun d => d.metadata.chunk_id) := by
  refine ⟨query_sources docs, ?_, ?_, ?_, ?_, ?_⟩
  · have hq : RAGSystem.query
        { vectorstore := vs, retriever := rt, qa_chain := some chain } question true now
        = Except.ok (query_respond question now
            (chain (question ++ instruction_suffix)) true) := rfl
    rw [hq, h]
    rfl
  · rw [List.range_eq_range']
    exact (query_sources_from_fields 0 docs).1
  · exact (query_sources_from_fields 0 docs).2.1
  · exact (query_sources_from_fields 0 docs).2.2.1
  · exact (query_sources_from_fields 0 docs).2.2.2

/-- Witness for C8 at a concrete input: a chain that succeeds with one source
document. -/
theorem query_success_sources_format_witness :
    ∃ srcs : List SourceInfo,
      RAGSystem.query
          { vectorstore := none, retriever := none,
            qa_chain := some (fun _ => Except.ok
              { result := "respuesta", source_documents := some [sampleDoc] }) }
          ("hola") true ("2025-01-01 00:00:00")
        = Except.ok
            { question := "hola", answer := "respuesta",
              timestamp := "2025-01-01 00:00:00",
              sources := some srcs, num_sources := some srcs.length, error := none }
      ∧ srcs.map (fun s => s.document_id)
          = (List.range (List.length [sampleDoc])).map (fun i => i + 1)
      ∧ srcs.map (fun s => s.content_preview)
          = [sampleDoc].map (fun d => d.page_content.take 200 ++ "...")
      ∧ srcs.map (fun s => s.source_file)
          = [sampleDoc].map (fun d => d.metadata.source_file.getD ("Unknown"))
      ∧ srcs.map (fun s => s.chunk_id) = [sampleDoc].map (fun d => d.metadata.chunk_id) :=
  query_success_sources_format none none
    (fun _ => Except.ok { result := "respuesta", source_documents := some [sampleDoc] })
    ("hola") ("2025-01-01 00:00:00") ("respuesta") [sampleDoc] rfl

/-! ### Indexer: RAGSystem.build_vectorstore (src/RETO_RAG.py lines 163-191) -/

/-- One `add_documents` call issued by `build_vectorstore`: the batch passed to
the vector store, whether the call succeeded (`ok = false` models the call
raising an exception), and the pause taken after it (`time.sleep(1)` on
success, `time.sleep(5)` in the except-branch). -/
structure UpsertCall where
  batch : List Document
  ok : Bool
  sleep_seconds : Nat
deriving DecidableEq

/-- The batch start offsets: Python `range(0, n, batch_size)` with the
hard-coded `batch_size = 100` of `build_vectorstore` (src/RETO_RAG.py line
180). For a positive step this range is exactly the multiples of the step
below `n`, in increasing order. -/
def batchStarts (n : Nat) : List Nat :=
  (List.range n).filter (fun i => i % 100 = 0)

/-- One iteration of the indexing loop (src/RETO_RAG.py lines 183-189): the
batch `documents[i : i + 100]` is passed to `add_documents`; `addFails i = true`
models that call raising (the except-branch prints the error and sleeps 5
seconds), otherwise the loop sleeps 1 second. Either way control returns to the
loop header. -/
def upsert_call (addFails : Nat → Bool) (documents : List Document) (i : Nat) :
    UpsertCall :=
  let batch := (documents.drop i).take 100
  if addFails i then
    { batch := batch, ok := false, sleep_seconds := 5 }
  else
    { batch := batch, ok := true, sleep_seconds := 1 }

/-- Trace of `build_vectorstore` (src/RETO_RAG.py lines 163-191): the sequence
of `add_documents` calls issued by the batching loop, in submission order. The
construction of the Chroma handle itself is external and not traced. -/
def build_vectorstore (addFails : Nat → Bool) (documents : List Document) :
    List UpsertCall :=
  (batchStarts documents.length).map (upsert_call addFails documents)

theorem upsert_call_batch (addFails : Nat → Bool) (documents : List Document)
    (i : Nat) : (upsert_call addFails documents i).batch = (documents.drop i).take 100 := by
  unfold upsert_call
  by_cases h : addFails i <;> simp [h]

theorem upsert_call_sleep (addFails : Nat → Bool) (documents : List Document)
    (i : Nat) : (upsert_call addFails documents i).sleep_seconds
      = if (upsert_call addFails documents i).ok then 1 else 5 := by
  unfold upsert_call
  by_cases h : addFails i <;> simp [h]

theorem batchStarts_eq (n : Nat) :
    batchStarts n = (List.range ((n + 99) / 100)).map (fun k => 100 * k) := by
  induction n with
  | zero => rfl
  | succ m ih =>
      unfold batchStarts at *
      rw [List.range_succ, List.filter_append, ih]
      by_cases h : m % 100 = 0
      · have h2 : (m + 1 + 99) / 100 = (m + 99) / 100 + 1 := by omega
        have h4 : 100 * ((m + 99) / 100) = m := by omega
        rw [h2, List.range_succ, List.map_append]
        simp [h, h4]
      · have h2 : (m + 1 + 99) / 100 = (m + 99) / 100 := by omega
        rw [h2]
        simp [h]

theorem build_vectorstore_batches (addFails : Nat → Bool) (documents : List Document) :
    (build_vectorstore addFails documents).map (fun c => c.batch)
      = (List.range ((documents.length + 99) / 100)).map
          (fun k => (documents.drop (100 * k)).take 100) := by
  unfold build_vectorstore
  rw [batchStarts_eq, List.map_map, List.map_map]
  refine List.map_congr_left (fun k _ => ?_)
  exact upsert_call_batch addFails documents (100 * k)

theorem join_chunks :
    ∀ (q : Nat) (docs : List Document), docs.length ≤ 100 * q →
      ((List.range q).map (fun k => (docs.drop (100 * k)).take 100)).flatten = docs := by
  intro q
  induction q with
  | zero =>
      intro docs h
      have hnil : docs = [] := List.eq_nil_of_length_eq_zero (by omega)
      subst hnil
      rfl
  | succ m ih =>
      intro docs h
      rw [List.range_succ_eq_map, List.map_cons, List.flatten_cons, List.map_map]
      have hmap : (List.range m).map ((fun k => (docs.drop (100 * k)).take 100) ∘ Nat.succ)
          = (List.range m).map (fun k => ((docs.drop 100).drop (100 * k)).take 100) := by
        refine List.map_congr_left (fun k _ => ?_)
        show (docs.drop (100 * (k + 1))).take 100
            = ((docs.drop 100).drop (100 * k)).take 100
        rw [List.drop_drop]
        congr 2
        omega
      have hlen : (docs.drop 100).length ≤ 100 * m := by
        rw [List.length_drop]
        omega
      rw [hmap, ih (docs.drop 100) hlen]
      show (docs.drop (100 * 0)).take 100 ++ docs.drop 100 = docs
      rw [Nat.mul_zero, List.drop_zero, List.take_append_drop]

/-- C1: indexing N chunks issues exactly `ceil(N / 100)` `add_documents` calls
(with the hard-coded `batch_size = 100`); the batches concatenate back to the
input in submission order; every batch has size 100 except the final one, which
has size `N mod 100` when 100 does not divide N; and the sequence of batches
attempted does not depend on which calls fail — after a failed batch the
remaining batches are still attempted. -/
theorem build_vectorstore_batching (addFails : Nat → Bool) (documents : List Document) :
    (build_vectorstore addFails documents).length = (documents.length + 99) / 100
    ∧ ((build_vectorstore addFails documents).map (fun c => c.batch)).flatten = documents
    ∧ ((build_vectorstore addFails documents).map (fun c => c.batch.length)
        = (List.range ((documents.length + 99) / 100)).map
            (fun k => if (k + 1) * 100 ≤ documents.length then 100
              else documents.length % 100))
    ∧ (build_vectorstore addFails documents).map (fun c => c.batch)
        = (build_vectorstore (fun _ => false) documents).map (fun c => c.batch) := by
  refine ⟨?_, ?_, ?_, ?_⟩
  · unfold build_vectorstore
    rw [List.length_map, batchStarts_eq, List.length_map, List.length_range]
  · rw [build_vectorstore_batches]
    exact join_chunks ((documents.length + 99) / 100) documents (by omega)
  · have hb := build_vectorstore_batches addFails documents
    have : (build_vectorstore addFails documents).map (fun c => c.batch.length)
        = ((build_vectorstore addFails documents).map (fun c => c.batch)).map
            (fun b => b.length) := by
      rw [List.map_map]
      exact List.map_congr_left (fun c _ => rfl)
    rw [this, hb, List.map_map]
    refine List.map_congr_left (fun k hk => ?_)
    have hk' : k < (documents.length + 99) / 100 := List.mem_range.mp hk
    show ((documents.drop (100 * k)).take 100).length = _
    rw [List.length_take, List.length_drop]
    split <;> omega
  · rw [build_vectorstore_batches, build_vectorstore_batches]

theorem build_vectorstore_sleeps (addFails : Nat → Bool) (documents : List Document) :
    ∀ c ∈ build_vectorstore addFails documents,
      c.sleep_seconds = if c.ok then 1 else 5 := by
  intro c hc
  obtain ⟨i, _, rfl⟩ := List.mem_map.mp hc
  exact upsert_call_sleep addFails documents i

/-- Counterexample for C2: with a single chunk whose upsert call always fails,
`build_vectorstore` issues exactly one `add_documents` call for that batch.
There is no second call for the batch: after the longer 5-second pause the batch
is skipped, whereas the claim's "exactly one delayed retry of that batch" would
require the failed batch to be attempted twice. -/
theorem build_vectorstore_no_retry_counterexample :
    build_vectorstore (fun _ => true) [sampleDoc]
      = [{ batch := [sampleDoc], ok := false, sleep_seconds := 5 }]
    ∧ (build_vectorstore (fun _ => true) [sampleDoc]).length ≠ 2 := by
  constructor
  · rfl
  · decide

/-- C2 (amended): when a batch's upsert call fails during indexing, the failure
is caught (the trace records a failed call, nothing propagates), the loop pauses
5 seconds instead of the usual 1 second, and then continues with the next batch
without re-attempting the failed one: every batch is passed to exactly one
`add_documents` call, in submission order, regardless of failures — so a batch
that failed is silently absent from the index. -/
theorem build_vectorstore_skip_on_failure (addFails : Nat → Bool)
    (documents : List Document) :
    ((build_vectorstore addFails documents).map (fun c => c.sleep_seconds)
        = (build_vectorstore addFails documents).map (fun c => if c.ok then 1 else 5))
    ∧ ((build_vectorstore addFails documents).map (fun c => c.batch)).flatten
        = documents := by
  constructor
  · exact List.map_congr_left (build_vectorstore_sleeps addFails documents)
  · rw [build_vectorstore_batches]
    exact join_chunks ((documents.length + 99) / 100) documents (by omega)

/-! ### DocumentProcessor.load_documents_from_directory (src/RETO_RAG.py lines 40-86) -/

/-- Model of Python `str.split(sep)` for a single-character separator, at the
character-list level: the string is cut at every occurrence of the separator;
splitting the empty string yields one empty piece, as in Python. -/
def splitOnChar (c : Char) : List Char → List (List Char)
  | [] => [[]]
  | x :: xs =>
      match splitOnChar c xs with
      | [] => [[]]
      | s :: ss => if x = c then [] :: s :: ss else (x :: s) :: ss

/-- Python `path.split(sep)[-1]`: the piece after the last separator
(`str.split` never returns an empty list, so index `-1` is its last element;
the `getD` default is never reached). -/
def pySplitLast (sep : Char) (s : String) : String :=
  String.mk (((splitOnChar sep s.toList).getLast?).getD [])

/-- Python `s.endswith(suffix)`, at the character-list level. -/
def pyEndsWith (s suffix : String) : Bool :=
  suffix.toList.isSuffixOf s.toList

theorem splitOnChar_ne_nil (c : Char) (l : List Char) : splitOnChar c l ≠ [] := by
  cases l with
  | nil => simp [splitOnChar]
  | cons x xs =>
      unfold splitOnChar
      cases splitOnChar c xs with
      | nil => simp
      | cons s ss =>
          by_cases h : x = c <;> simp [h]

theorem splitOnChar_of_not_mem (c : Char) (m : List Char) (hm : c ∉ m) :
    splitOnChar c m = [m] := by
  induction m with
  | nil => rfl
  | cons x xs ih =>
      have hx : ¬ x = c := fun he => hm (he ▸ List.mem_cons_self x xs)
      have hxs : c ∉ xs := fun hc => hm (List.mem_cons_of_mem x hc)
      unfold splitOnChar
      rw [ih hxs]
      simp [hx]

theorem splitOnChar_length_ge_two (c : Char) (t : List Char) (ht : c ∈ t) :
    2 ≤ (splitOnChar c t).length := by
  induction t with
  | nil => cases ht
  | cons x xs ih =>
      unfold splitOnChar
      rcases hr : splitOnChar c xs with _ | ⟨s, ss⟩
      · exact absurd hr (splitOnChar_ne_nil c xs)
      · by_cases h : x = c
        · simp [h]
        · have hxs : c ∈ xs := by
            rcases List.mem_cons.mp ht with h1 | h1
            · exact absurd h1.symm h
            · exact h1
          have := ih hxs
          rw [hr] at this
          simp [h] at this ⊢
          omega

/-- The last piece of a split is the text after the last separator: when `m` is
separator-free, splitting `l ++ sep :: m` ends with the piece `m`. -/
theorem splitOnChar_getLast (c : Char) (m : List Char) (hm : c ∉ m) :
    ∀ l : List Char, (splitOnChar c (l ++ c :: m)).getLast? = some m := by
  intro l
  induction l with
  | nil =>
      show (splitOnChar c (c :: m)).getLast? = some m
      unfold splitOnChar
      rw [splitOnChar_of_not_mem c m hm]
      simp
  | cons x l ih =>
      show (splitOnChar c (x :: (l ++ c :: m))).getLast? = some m
      unfold splitOnChar
      rcases hr : splitOnChar c (l ++ c :: m) with _ | ⟨s, ss⟩
      · exact absurd hr (splitOnChar_ne_nil c _)
      · have hss : ss ≠ [] := by
          have h2 := splitOnChar_length_ge_two c (l ++ c :: m)
            (List.mem_append_right l (List.mem_cons_self c m))
          rw [hr] at h2
          intro he
          rw [he] at h2
          simp at h2
        obtain ⟨s2, ss2, rfl⟩ := List.exists_cons_of_ne_nil hss
        rw [hr] at ih
        by_cases h : x = c
        · simpa [h] using ih
        · simpa [h] using ih

theorem pySplitLast_of_endsWith (p suffix : String) (sep : Char) (m : List Char)
    (hsuffix : suffix.toList = sep :: m) (hm : sep ∉ m)
    (h : pyEndsWith p suffix = true) :
    pySplitLast sep p = String.mk m := by
  unfold pyEndsWith at h
  rw [List.isSuffixOf_iff_suffix] at h
  obtain ⟨q, hq⟩ := h
  unfold pySplitLast
  rw [← hq, hsuffix, splitOnChar_getLast sep m hm q]
  rfl

/-- For a path ending in the literal (lowercase) `.txt`, the Python expression
`path.split(".")[-1]` is exactly `txt`. -/
theorem file_type_of_txt (p : String) (h : pyEndsWith p (".txt") = true) :
    pySplitLast '.' p = "txt" := by
  have hx := pySplitLast_of_endsWith p (".txt") '.' (['t', 'x', 't'])
    (by decide) (by decide) h
  rw [hx]

/-- For a path ending in the literal (lowercase) `.pdf`, the Python expression
`path.split(".")[-1]` is exactly `pdf`. -/
theorem file_type_of_pdf (p : String) (h : pyEndsWith p (".pdf") = true) :
    pySplitLast '.' p = "pdf" := by
  have hx := pySplitLast_of_endsWith p (".pdf") '.' (['p', 'd', 'f'])
    (by decide) (by decide) h
  rw [hx]

/-- A file found by the directory glob (src/RETO_RAG.py line 57), together with
the outcome of its external loader call (`PyPDFLoader(...).load()` /
`TextLoader(...).load()`): `Except.error` models the loader raising, which the
per-file try/except catches. -/
structure LoadedFile where
  path : String
  load : Except String (List Document)

/-- The metadata annotation applied to every loaded document
(src/RETO_RAG.py lines 77-79): `source_file = os.path.basename(file_path_str)`
(for a POSIX path, the piece after the last slash) and
`file_type = file_path_str.split(".")[-1]`. -/
def annotate_doc (path : String) (d : Document) : Document :=
  { page_content := d.page_content,
    metadata := { d.metadata with
      source_file := some (pySplitLast '/' path),
      file_type := some (pySplitLast '.' path) } }

/-- One iteration of the loader loop (src/RETO_RAG.py lines 59-84): a `.pdf`
path goes to the PDF loader, a `.txt` path to the text loader (both abstracted
in `LoadedFile.load`), any other path is reported as unsupported and skipped; a
loader exception is caught and the file skipped; the loaded documents are
annotated and appended in order. -/
def load_step (documents : List Document) (f : LoadedFile) : List Document :=
  if pyEndsWith f.path (".pdf") then
    match f.load with
    | Except.ok docs => documents ++ docs.map (annotate_doc f.path)
    | Except.error _ => documents
  else if pyEndsWith f.path (".txt") then
    match f.load with
    | Except.ok docs => documents ++ docs.map (annotate_doc f.path)
    | Except.error _ => documents
  else documents

/-- `DocumentProcessor.load_documents_from_directory` (src/RETO_RAG.py lines
44-86), over the list of files the directory glob found. -/
def load_documents_from_directory (files : List LoadedFile) : List Document :=
  files.foldl load_step []

theorem load_step_mem (documents : List Document) (f : LoadedFile) (d : Document)
    (hd : d ∈ load_step documents f) :
    d ∈ documents
    ∨ ((pyEndsWith f.path (".pdf") = true ∨ pyEndsWith f.path (".txt") = true)
        ∧ ∃ d0, d = annotate_doc f.path d0) := by
  unfold load_step at hd
  by_cases hpdf : pyEndsWith f.path (".pdf")
  · rw [if_pos hpdf] at hd
    cases hload : f.load with
    | ok docs =>
        rw [hload] at hd
        rcases List.mem_append.mp hd with h | h
        · exact Or.inl h
        · obtain ⟨d0, _, rfl⟩ := List.mem_map.mp h
          exact Or.inr ⟨Or.inl hpdf, d0, rfl⟩
    | error e =>
        rw [hload] at hd
        exact Or.inl hd
  · rw [if_neg hpdf] at hd
    by_cases htxt : pyEndsWith f.path (".txt")
    · rw [if_pos htxt] at hd
      cases hload : f.load with
      | ok docs =>
          rw [hload] at hd
          rcases List.mem_append.mp hd with h | h
          · exact Or.inl h
          · obtain ⟨d0, _, rfl⟩ := List.mem_map.mp h
            exact Or.inr ⟨Or.inr htxt, d0, rfl⟩
      | error e =>
          rw [hload] at hd
          exact Or.inl hd
    · rw [if_neg htxt] at hd
      exact Or.inl hd

theorem loader_fold_mem (files : List LoadedFile) :
    ∀ (acc : List Document) (d : Document), d ∈ files.foldl load_step acc →
      d ∈ acc
      ∨ ∃ f ∈ files,
          (pyEndsWith f.path (".pdf") = true ∨ pyEndsWith f.path (".txt") = true)
          ∧ ∃ d0, d = annotate_doc f.path d0 := by
  induction files with
  | nil =>
      intro acc d hd
      exact Or.inl hd
  | cons f fs ih =>
      intro acc d hd
      rw [List.foldl_cons] at hd
      rcases ih (load_step acc f) d hd with h | ⟨g, hg, hP⟩
      · rcases load_step_mem acc f d h with h1 | ⟨hext, d0, rfl⟩
        · exact Or.inl h1
        · exact Or.inr ⟨f, List.mem_cons_self f fs, hext, d0, rfl⟩
      · exact Or.inr ⟨g, List.mem_cons_of_mem f hg, hP⟩

/-- C9: every document produced by the Loader comes from one of the given files,
and its metadata carries `source_file` equal to the file's base name (the path
piece after the last slash) and `file_type` equal to the file's extension with
no leading dot — concretely the literal lowercase `pdf` or `txt`, since only
paths ending in the lowercase `.pdf` / `.txt` are processed. -/
theorem loader_metadata (files : List LoadedFile) :
    ∀ d ∈ load_documents_from_directory files,
      ∃ f ∈ files,
        d.metadata.source_file = some (pySplitLast '/' f.path)
        ∧ d.metadata.file_type = some (pySplitLast '.' f.path)
        ∧ ((pyEndsWith f.path (".pdf") = true ∧ d.metadata.file_type = some ("pdf"))
            ∨ (pyEndsWith f.path (".txt") = true
                ∧ d.metadata.file_type = some ("txt"))) := by
  intro d hd
  rcases loader_fold_mem files [] d hd with h | ⟨f, hf, hext, d0, rfl⟩
  · cases h
  · refine ⟨f, hf, rfl, rfl, ?_⟩
    rcases hext with hp | ht
    · refine Or.inl ⟨hp, ?_⟩
      show some (pySplitLast '.' f.path) = some ("pdf")
      rw [file_type_of_pdf f.path hp]
    · refine Or.inr ⟨ht, ?_⟩
      show some (pySplitLast '.' f.path) = some ("txt")
      rw [file_type_of_txt f.path ht]

/-- A sample input file for the loader witness. -/
def sampleLoadedFile : LoadedFile :=
  { path := "docs/a.txt", load := Except.ok [sampleDoc] }

/-- The document the loader produces from `sampleLoadedFile`. -/
def sampleLoadedDoc : Document :=
  { page_content := "hola",
    metadata := { source_file := some ("a.txt"), file_type := some ("txt"),
                  chunk_id := none, chunk_size := none } }

/-- Witness for C9 at a concrete input: one text file `docs/a.txt` whose loader
returns one document. -/
theorem loader_metadata_witness :
    ∃ f ∈ [sampleLoadedFile],
      sampleLoadedDoc.metadata.source_file = some (pySplitLast '/' f.path)
      ∧ sampleLoadedDoc.metadata.file_type = some (pySplitLast '.' f.path)
      ∧ ((pyEndsWith f.path (".pdf") = true
            ∧ sampleLoadedDoc.metadata.file_type = some ("pdf"))
          ∨ (pyEndsWith f.path (".txt") = true
              ∧ sampleLoadedDoc.metadata.file_type = some ("txt"))) :=
  loader_metadata [sampleLoadedFile] sampleLoadedDoc (by decide)
